import Mathlib

/-! Verification of template-base-go, file `main.go`.

A shallow embedding of the transport-adaptation code of `main.go`:
`getServerPort`, `logServerInfo`, `setupCORS`, `httpServer`, `LambdaHandler`
and `main`.

Conventions of the embedding.

* A Go `string` is a Lean `String`; `fmt.Sprintf` with a single `%v`/`%s` verb
  applied to a string is concatenation.
* A Go `map[string]string` is an association list; the nil map is `[]`.
* A call that may panic yields an `Outcome`; state the router can touch (the
  handler set, the database behind it) is threaded explicitly as `σ`.
* Packages that `main.go` imports (`utils`, `core`, `repositories`,
  `handlers`, the Lambda runtime, `net/http`) are taken as parameters, bundled
  in `Packages`. Their constructors are taken to return.
* The CORS middleware of `gorilla/handlers` is embedded after the library file
  `cors.go`: how the options build the policy, and how the wrapper serves a
  request.
* `main` is embedded as the sequence of effects a run performs during startup.
-/

namespace TemplateBaseGo

/-! ## Values shared by the embedding -/

/-- Go `error` value, seen through its message. -/
structure GoError where
  msg : String
  deriving DecidableEq, Repr

/-- Method `Error()` of a Go error. -/
def GoError.Error (e : GoError) : String := e.msg

/-- Result of a Go call that either returns a value or panics with a value. -/
inductive Outcome (α : Type) where
  | returned : α → Outcome α
  | panicked : String → Outcome α
  deriving DecidableEq, Repr

/-- Constant `http.StatusInternalServerError`. -/
def StatusInternalServerError : Int := 500

/-! ## Environment and port selection -/

/-- Type `utils.Environment`, seen through the two methods `main.go` calls:
`GetEnvVar(name)` and `IsLambda()`. -/
structure Environment where
  GetEnvVar : String → String
  IsLambda : Bool

/-- Type `utils.Container`: `main.go` only uses its `Environment` field. -/
structure UtilsContainer where
  Environment : Environment

/-- Function `utils.NewContainer`. -/
def NewContainer (env : Environment) : UtilsContainer := ⟨env⟩

/-- Function `getServerPort` of `main.go`:
`port := fmt.Sprintf(":%v", GetEnvVar("PORT")); if port == ":" then port = ":8080"`. -/
def getServerPort (utilsContainer : UtilsContainer) : String :=
  let port := ":" ++ utilsContainer.Environment.GetEnvVar "PORT"
  if port = ":" then ":8080" else port

/-- Function `logServerInfo` of `main.go`, as the list of messages passed to
`servicesContainer.Logger.Info`, in call order. -/
def logServerInfo (utilsContainer : UtilsContainer) : List String :=
  let port := getServerPort utilsContainer
  let serverURL := "Server url: http://localhost" ++ port
  let swaggerURL := serverURL ++ "/api-docs/index.html"
  [ "Initializing server",
    "Environment: " ++ utilsContainer.Environment.GetEnvVar "ENV",
    serverURL,
    "Swagger url: " ++ swaggerURL ]

/-! ## Cross-origin configuration -/

/-- Options of `gorillaHandlers` that `setupCORS` builds. -/
inductive CORSOption where
  | AllowedHeaders (headers : List String)
  | AllowedMethods (methods : List String)
  | AllowedOrigins (origins : List String)
  deriving DecidableEq, Repr

/-- Handler returned by `gorillaHandlers.CORS(opts...)(handler)`: it is
determined by the options and the handler it wraps. The policy the library
builds from the options is `parseCORSOptions options`, and the handler serves
requests by `CORSHandler.ServeHTTP`. -/
structure CORSHandler (H : Type) where
  options : List CORSOption
  handler : H

/-- Function `gorillaHandlers.CORS`. -/
def CORS {H : Type} (opts : List CORSOption) (handler : H) : CORSHandler H :=
  ⟨opts, handler⟩

/-- Function `setupCORS` of `main.go`. -/
def setupCORS {H : Type} (handler : H) : CORSHandler H :=
  let headers := CORSOption.AllowedHeaders
    ["Content-Type", "Access-Control-Allow-Headers", "Authorization", "X-Requested-With"]
  let methods := CORSOption.AllowedMethods ["DELETE", "POST", "GET", "OPTIONS", "PUT", "PATCH"]
  let origins := CORSOption.AllowedOrigins ["*"]
  CORS [headers, methods, origins] handler

/-! ## The function-mode handler -/

/-- Type `bytes.Buffer`, holding the text that `String()` returns for the bytes
written so far. -/
structure Buffer where
  data : String
  deriving DecidableEq, Repr

/-- Method `String()` of `bytes.Buffer`. -/
def Buffer.String (b : Buffer) : String := b.data

/-- Type `httptest.ResponseRecorder`: the fields a handler fills in. -/
structure ResponseRecorder where
  Code : Int
  HeaderMap : List (String × List String)
  Body : Buffer
  deriving DecidableEq, Repr

/-- Function `httptest.NewRecorder`: status 200, no headers, empty body. -/
def NewRecorder : ResponseRecorder :=
  { Code := 200, HeaderMap := [], Body := ⟨""⟩ }

/-- Type `events.APIGatewayProxyResponse`. Fields a struct literal leaves out
keep their zero value. -/
structure APIGatewayProxyResponse where
  StatusCode : Int := 0
  Headers : List (String × String) := []
  MultiValueHeaders : List (String × List String) := []
  Body : String := ""
  IsBase64Encoded : Bool := false
  deriving DecidableEq, Repr

/-- Lookup in a Go `map[string]string`. -/
def mapLookup (m : List (String × String)) (key : String) : Option String :=
  (m.find? (fun kv => kv.1 = key)).map (fun kv => kv.2)

/-- Type `http.Handler` running against a recorder: `ServeHTTP(recorder, req)`
mutates the recorder and the state behind the handlers, or panics. -/
structure Handler (Req σ : Type) where
  ServeHTTP : ResponseRecorder → Req → σ → Outcome ResponseRecorder × σ

/-- Type `core.Api`, seen through `Router()`. -/
structure Api (Req σ : Type) where
  Router : Handler Req σ

/-- The imported packages `main.go` calls into.
`Ev` is `events.LambdaFunctionURLRequest`, `Req` is `*http.Request`, `DB` is
`*mongo.Database`, `HC` is `*handlers.Container`, `σ` is the state reachable
from the handlers. -/
structure Packages (Ev Req DB HC σ : Type) where
  /-- Function `utils.ParseEnvironmentFile`: `none` is a nil error. -/
  ParseEnvironmentFile : String → Option GoError
  /-- Function `utils.NewEnvironment`. -/
  NewEnvironment : Environment
  /-- Function `utils.LambdaEventToHttpRequest`: the pair `(req, err)`. -/
  LambdaEventToHttpRequest : Ev → Req × Option GoError
  /-- Function `repositories.Connect`. -/
  Connect : String → String → DB
  /-- The chain `handlers.NewContainer(handlers.NewExampleHandler(..,
  repositories.NewExampleRepository(dbConnection)))`. -/
  NewHandlersContainer : DB → HC
  /-- Function `core.NewApi`, applied to the handlers container. -/
  NewApi : HC → Api Req σ
  /-- Whether `lambda.Start` ever returns to `main`. -/
  lambdaStartReturns : Bool
  /-- Function `http.ListenAndServe`: `none` when it keeps serving, `some e`
  when it returns the error `e`. -/
  ListenAndServe : String → Option GoError

/-- Function `LambdaHandler` of `main.go`. The `ctx` argument is not used by
the body and is left out; `handlersContainer` is the package-level variable. -/
def LambdaHandler {Ev Req DB HC σ : Type} (pk : Packages Ev Req DB HC σ)
    (handlersContainer : HC) (request : Ev) (s : σ) :
    Outcome (APIGatewayProxyResponse × Option GoError) × σ :=
  let api := pk.NewApi handlersContainer
  match pk.LambdaEventToHttpRequest request with
  | (_, some err) =>
    (.returned ({ StatusCode := StatusInternalServerError, Body := err.Error }, none), s)
  | (req, none) =>
    let recorder := NewRecorder
    match api.Router.ServeHTTP recorder req s with
    | (.panicked v, s') => (.panicked v, s')
    | (.returned recorder, s') =>
      let response : APIGatewayProxyResponse :=
        { StatusCode := recorder.Code,
          Body := recorder.Body.String,
          Headers := [("Content-Type", "application/json")] }
      (.returned (response, none), s')

/-! ## Library `gorilla/handlers`: the CORS middleware

The behaviour of the handler that `gorillaHandlers.CORS` returns, after the
library file `cors.go`, with the `net/http` and `strings` functions it calls. -/

/-- Type `http.Header`. -/
abbrev Header := List (String × List String)

/-- Function `unicode.IsSpace`. -/
def isSpace (c : Char) : Bool :=
  let n := c.toNat
  (9 ≤ n ∧ n ≤ 13) ∨ n = 32 ∨ n = 133 ∨ n = 160 ∨ n = 5760 ∨ (8192 ≤ n ∧ n ≤ 8202) ∨
    n = 8232 ∨ n = 8233 ∨ n = 8239 ∨ n = 8287 ∨ n = 12288

/-- Function `strings.TrimSpace`. -/
def TrimSpace (s : String) : String :=
  String.mk ((s.data.dropWhile isSpace).reverse.dropWhile isSpace).reverse

/-- Function `strings.ToUpper`, on ASCII letters. -/
def ToUpper (s : String) : String :=
  String.mk (s.data.map Char.toUpper)

/-- Function `strings.Split(s, ",")`, on the characters of `s`. -/
def splitComma : List Char → List (List Char)
  | [] => [[]]
  | c :: cs =>
    if c.toNat = 44 then [] :: splitComma cs
    else
      match splitComma cs with
      | [] => [[c]]
      | w :: ws => (c :: w) :: ws

/-- Function `strings.Split(s, ",")`. -/
def SplitComma (s : String) : List String :=
  (splitComma s.data).map String.mk

/-- Function `validHeaderFieldByte` of `net/textproto`: the token characters. -/
def validHeaderFieldByte (c : Char) : Bool :=
  let n := c.toNat
  (48 ≤ n ∧ n ≤ 57) ∨ (65 ≤ n ∧ n ≤ 90) ∨ (97 ≤ n ∧ n ≤ 122) ∨
    n ∈ [33, 35, 36, 37, 38, 39, 42, 43, 45, 46, 94, 95, 96, 124, 126]

/-- Case normalisation of `canonicalMIMEHeaderKey`: upper case at the start and
after a hyphen, lower case elsewhere. -/
def canonicalCase : Bool → List Char → List Char
  | _, [] => []
  | upper, c :: cs =>
    let c₁ := if upper then c.toUpper else c.toLower
    c₁ :: canonicalCase (c₁.toNat = 45) cs

/-- Function `http.CanonicalHeaderKey`: a key holding a character that is no
token character is returned unchanged. -/
def CanonicalHeaderKey (s : String) : String :=
  if s.data.all validHeaderFieldByte then String.mk (canonicalCase true s.data) else s

/-- Method `Get` of `http.Header`: the first value under the canonical key, or
the empty string. -/
def Header.Get (h : Header) (key : String) : String :=
  match h.find? (fun kv => kv.1 = CanonicalHeaderKey key) with
  | some (_, v :: _) => v
  | _ => ""

/-- Map access `h[key]`, the `ok` result. -/
def Header.Has (h : Header) (key : String) : Bool :=
  h.any (fun kv => kv.1 = key)

/-- Method `Set` of `http.Header`: the canonical key gets the single value. -/
def Header.Set (h : Header) (key value : String) : Header :=
  h.filter (fun kv => kv.1 ≠ CanonicalHeaderKey key) ++ [(CanonicalHeaderKey key, [value])]

/-- Call `w.Header().Set(key, value)` on a response writer. -/
def ResponseRecorder.HeaderSet (w : ResponseRecorder) (key value : String) :
    ResponseRecorder :=
  { w with HeaderMap := Header.Set w.HeaderMap key value }

/-- Call `w.WriteHeader(code)` on a response writer whose status line has not
been written yet. -/
def ResponseRecorder.WriteHeader (w : ResponseRecorder) (code : Int) : ResponseRecorder :=
  { w with Code := code }

/-- Type `*http.Request`, seen through the fields the middleware reads. -/
structure RequestFields (Req : Type) where
  Method : Req → String
  Header : Req → Header

/-- Type `cors` of the library: the policy; the wrapped handler `h` is kept by
`CORSHandler`. -/
structure cors where
  allowedHeaders : List String
  allowedMethods : List String
  allowedOrigins : List String
  allowedOriginValidator : Option (String → Bool)
  exposedHeaders : List String
  maxAge : Int
  ignoreOptions : Bool
  allowCredentials : Bool
  optionStatusCode : Int

/-- Variable `defaultCorsOptionStatusCode`. -/
def defaultCorsOptionStatusCode : Int := 200

/-- Variable `defaultCorsMethods`. -/
def defaultCorsMethods : List String := ["GET", "HEAD", "POST"]

/-- Variable `defaultCorsHeaders`. -/
def defaultCorsHeaders : List String :=
  ["Accept", "Accept-Language", "Content-Language", "Origin"]

/-- Method `isMatch` of `cors`. -/
def isMatch (needle : String) (haystack : List String) : Bool :=
  haystack.any (fun v => v = needle)

/-- Option `AllowedHeaders(headers)`: every non-empty normalised name not yet
allowed is appended to the allowed headers. -/
def AllowedHeaders (headers : List String) (ch : cors) : cors :=
  headers.foldl (fun ch v =>
    let normalizedHeader := CanonicalHeaderKey (TrimSpace v)
    if normalizedHeader = "" then ch
    else if isMatch normalizedHeader ch.allowedHeaders then ch
    else { ch with allowedHeaders := ch.allowedHeaders ++ [normalizedHeader] }) ch

/-- Option `AllowedMethods(methods)`: the allowed methods are replaced by the
non-empty normalised names, without repetition. -/
def AllowedMethods (methods : List String) (ch : cors) : cors :=
  methods.foldl (fun ch v =>
    let normalizedMethod := ToUpper (TrimSpace v)
    if normalizedMethod = "" then ch
    else if isMatch normalizedMethod ch.allowedMethods then ch
    else { ch with allowedMethods := ch.allowedMethods ++ [normalizedMethod] })
    { ch with allowedMethods := [] }

/-- Option `AllowedOrigins(origins)`: a list holding `"*"` becomes `["*"]`. -/
def AllowedOrigins (origins : List String) (ch : cors) : cors :=
  if origins.any (fun v => v = "*") then { ch with allowedOrigins := ["*"] }
  else { ch with allowedOrigins := origins }

/-- Application of an option to the policy under construction. -/
def CORSOption.apply : CORSOption → cors → cors
  | .AllowedHeaders headers => TemplateBaseGo.AllowedHeaders headers
  | .AllowedMethods methods => TemplateBaseGo.AllowedMethods methods
  | .AllowedOrigins origins => TemplateBaseGo.AllowedOrigins origins

/-- Function `parseCORSOptions`: the options are applied in order to the
default policy. -/
def parseCORSOptions (opts : List CORSOption) : cors :=
  opts.foldl (fun ch option => option.apply ch)
    { allowedMethods := defaultCorsMethods,
      allowedHeaders := defaultCorsHeaders,
      allowedOrigins := [],
      allowedOriginValidator := none,
      exposedHeaders := [],
      maxAge := 0,
      ignoreOptions := false,
      allowCredentials := false,
      optionStatusCode := defaultCorsOptionStatusCode }

/-- Method `isOriginAllowed` of `cors`. -/
def cors.isOriginAllowed (ch : cors) (origin : String) : Bool :=
  if origin = "" then false
  else
    match ch.allowedOriginValidator with
    | some validator => validator origin
    | none =>
      if ch.allowedOrigins.length = 0 then true
      else ch.allowedOrigins.any (fun allowedOrigin => allowedOrigin = origin ∨ allowedOrigin = "*")

/-- The loop of `cors.ServeHTTP` over the requested headers: `none` when a
header is not allowed, otherwise the headers to echo. -/
def allowedRequestHeaders (ch : cors) : List String → Option (List String)
  | [] => some []
  | v :: rest =>
    let canonicalHeader := CanonicalHeaderKey (TrimSpace v)
    if canonicalHeader = "" ∨ isMatch canonicalHeader defaultCorsHeaders then
      allowedRequestHeaders ch rest
    else if isMatch canonicalHeader ch.allowedHeaders then
      (allowedRequestHeaders ch rest).map (fun hs => canonicalHeader :: hs)
    else none

/-- The preflight block of `cors.ServeHTTP`: `Sum.inl w` when the handler
returns from inside the block, `Sum.inr w` when it goes on. -/
def corsPreflight (ch : cors) (header : Header) (w : ResponseRecorder) :
    ResponseRecorder ⊕ ResponseRecorder :=
  if Header.Has header "Access-Control-Request-Method" then
    let method := Header.Get header "Access-Control-Request-Method"
    if isMatch method ch.allowedMethods then
      let requestHeaders := SplitComma (Header.Get header "Access-Control-Request-Headers")
      match allowedRequestHeaders ch requestHeaders with
      | none => .inl (w.WriteHeader 403)
      | some allowedHeaders =>
        let w₁ := if 0 < allowedHeaders.length then
          w.HeaderSet "Access-Control-Allow-Headers" (String.intercalate "," allowedHeaders)
          else w
        let w₂ := if 0 < ch.maxAge then w₁.HeaderSet "Access-Control-Max-Age" (toString ch.maxAge)
          else w₁
        let w₃ := if isMatch method defaultCorsMethods then w₂
          else w₂.HeaderSet "Access-Control-Allow-Methods" method
        .inr w₃
    else .inl (w.WriteHeader 405)
  else .inl (w.WriteHeader 400)

/-- The value of the `Access-Control-Allow-Origin` header in `cors.ServeHTTP`. -/
def returnOrigin (ch : cors) (origin : String) : String :=
  if ch.allowedOriginValidator.isNone ∧ ch.allowedOrigins.length = 0 then "*"
  else if ch.allowedOrigins.any (fun o => o = "*") then "*" else origin

/-- The end of `cors.ServeHTTP`, after the method-specific block: the
credentials, `Vary` and origin headers, then the answer to `OPTIONS` or the
wrapped handler. -/
def corsFinish {Req σ : Type} (rq : RequestFields Req) (ch : cors) (h : Handler Req σ)
    (origin : String) (w : ResponseRecorder) (r : Req) (s : σ) :
    Outcome ResponseRecorder × σ :=
  let w₁ := if ch.allowCredentials then w.HeaderSet "Access-Control-Allow-Credentials" "true"
    else w
  let w₂ := if 1 < ch.allowedOrigins.length then w₁.HeaderSet "Vary" "Origin" else w₁
  let w₃ := w₂.HeaderSet "Access-Control-Allow-Origin" (returnOrigin ch origin)
  if rq.Method r = "OPTIONS" then (.returned (w₃.WriteHeader ch.optionStatusCode), s)
  else h.ServeHTTP w₃ r s

/-- Method `ServeHTTP` of the handler returned by `gorillaHandlers.CORS`. -/
def CORSHandler.ServeHTTP {Req σ : Type} (rq : RequestFields Req)
    (c : CORSHandler (Handler Req σ)) (w : ResponseRecorder) (r : Req) (s : σ) :
    Outcome ResponseRecorder × σ :=
  let ch := parseCORSOptions c.options
  let origin := Header.Get (rq.Header r) "Origin"
  if ch.isOriginAllowed origin then
    if rq.Method r = "OPTIONS" then
      if ch.ignoreOptions then c.handler.ServeHTTP w r s
      else
        match corsPreflight ch (rq.Header r) w with
        | .inl w₁ => (.returned w₁, s)
        | .inr w₁ => corsFinish rq ch c.handler origin w₁ r s
    else
      let w₁ := if 0 < ch.exposedHeaders.length then
        w.HeaderSet "Access-Control-Expose-Headers" (String.intercalate "," ch.exposedHeaders)
        else w
      corsFinish rq ch c.handler origin w₁ r s
  else if rq.Method r ≠ "OPTIONS" ∨ ch.ignoreOptions then c.handler.ServeHTTP w r s
  else (.returned w, s)

/-- Status, body and state of a handler run, the response headers left out. -/
def statusAndBody {σ : Type} (p : Outcome ResponseRecorder × σ) :
    Outcome (Int × String) × σ :=
  match p with
  | (.returned w, s) => (.returned (w.Code, w.Body.String), s)
  | (.panicked v, s) => (.panicked v, s)

/-! ## Startup -/

/-- One externally visible step of a run of `main`. -/
inductive Effect where
  /-- Call of `utils.ParseEnvironmentFile(path)`. -/
  | ParseEnvironmentFile (path : String)
  /-- Call of `log.Fatal(msg)`: the process exits. -/
  | Fatal (msg : String)
  /-- Call of `Environment.IsLambda()`, with the value it returned. -/
  | IsLambda (result : Bool)
  /-- Call of `fmt.Println`, with the line printed. -/
  | Println (line : String)
  /-- Call of `repositories.Connect(uri, db_name)`. -/
  | Connect (uri db_name : String)
  /-- Call of `lambda.Start(LambdaHandler)`. -/
  | LambdaStart
  /-- Call of `http.ListenAndServe(addr, handler)`, with the cross-origin
  options of the handler. -/
  | ListenAndServe (addr : String) (cors : List CORSOption)
  /-- Call of `Logger.Info(msg)`. -/
  | Info (msg : String)
  deriving DecidableEq, Repr

/-- Function `loadEnvs` of `main.go`: its effects, and whether it returns
(`log.Fatal` does not). -/
def loadEnvs {Ev Req DB HC σ : Type} (pk : Packages Ev Req DB HC σ) : List Effect × Bool :=
  match pk.ParseEnvironmentFile "" with
  | some err => ([.ParseEnvironmentFile "", .Fatal err.Error], false)
  | none => ([.ParseEnvironmentFile ""], true)

/-- Function `getDbConnection` of `main.go`. -/
def getDbConnection {Ev Req DB HC σ : Type} (pk : Packages Ev Req DB HC σ)
    (utilsContainer : UtilsContainer) : DB :=
  let uri := utilsContainer.Environment.GetEnvVar "MONGO_URI"
  let db_name := utilsContainer.Environment.GetEnvVar "DB_NAME"
  pk.Connect uri db_name

/-- The handler `httpServer` serves: `setupCORS(api.Router())` for
`api := core.NewApi(handlersContainer, ..)`. -/
def httpServerHandler {Ev Req DB HC σ : Type} (pk : Packages Ev Req DB HC σ)
    (handlersContainer : HC) : CORSHandler (Handler Req σ) :=
  let api := pk.NewApi handlersContainer
  setupCORS api.Router

/-- Function `httpServer` of `main.go`: it calls `http.ListenAndServe` on the
CORS-wrapped router and passes whatever that returns to `log.Fatal`, so it
never returns to its caller. -/
def httpServer {Ev Req DB HC σ : Type} (pk : Packages Ev Req DB HC σ)
    (handlersContainer : HC) (utilsContainer : UtilsContainer) : List Effect :=
  let port := getServerPort utilsContainer
  .ListenAndServe port (httpServerHandler pk handlersContainer).options ::
    match pk.ListenAndServe port with
    | some err => [.Fatal err.Error]
    | none => []

/-- Value `main` assigns to the package-level variable `handlersContainer`. -/
def mainHandlersContainer {Ev Req DB HC σ : Type} (pk : Packages Ev Req DB HC σ) : HC :=
  pk.NewHandlersContainer (getDbConnection pk (NewContainer pk.NewEnvironment))

/-- Function `main` of `main.go`, as the effects of a run in call order. -/
def main {Ev Req DB HC σ : Type} (pk : Packages Ev Req DB HC σ) : List Effect :=
  match loadEnvs pk with
  | (t, false) => t
  | (t, true) =>
    let utilsContainer := NewContainer pk.NewEnvironment
    let isLambda := utilsContainer.Environment.IsLambda
    let handlersContainer := mainHandlersContainer pk
    t ++ [ .IsLambda isLambda,
           .Println ("IsLambda?:  " ++ toString isLambda),
           .Connect (utilsContainer.Environment.GetEnvVar "MONGO_URI")
             (utilsContainer.Environment.GetEnvVar "DB_NAME") ] ++
      (if isLambda then
        .LambdaStart ::
          (if pk.lambdaStartReturns then (logServerInfo utilsContainer).map .Info else [])
      else
        httpServer pk handlersContainer utilsContainer)

/-- Values returned by the `IsLambda()` calls of a run, in order. -/
def isLambdaReads : List Effect → List Bool
  | [] => []
  | .IsLambda b :: rest => b :: isLambdaReads rest
  | _ :: rest => isLambdaReads rest

/-- Whether the run registers the Lambda entry point. -/
def startsLambda (t : List Effect) : Bool :=
  t.any (fun e => match e with | .LambdaStart => true | _ => false)

/-- Whether the run starts the HTTP server. -/
def startsHTTP (t : List Effect) : Bool :=
  t.any (fun e => match e with | .ListenAndServe _ _ => true | _ => false)

/-- Whether a transport is started before the first `IsLambda()` call. -/
def transportBeforeRead : List Effect → Bool
  | [] => false
  | .IsLambda _ :: _ => false
  | .LambdaStart :: _ => true
  | .ListenAndServe _ _ :: _ => true
  | _ :: rest => transportBeforeRead rest

/-! ## Concrete instances -/

/-- Router over numbered requests: request 0 panics, request 1 is answered
200 with a plain-text header, any other request is answered 404. Each call
bumps a counter. -/
def sampleRouter : Handler Nat Nat where
  ServeHTTP recorder req s :=
    if req = 0 then (.panicked "handler fault", s + 1)
    else if req = 1 then
      (.returned { recorder with
          Code := 200, HeaderMap := [("Content-Type", ["text/plain"])], Body := ⟨"[]"⟩ }, s + 1)
    else (.returned { recorder with Code := 404, Body := ⟨"404 page not found"⟩ }, s + 1)

/-- Fields of the numbered sample requests: request 3 is an `OPTIONS` request,
the others are `GET`; request 4 carries an `Origin` header. -/
def sampleRequestFields : RequestFields Nat where
  Method r := if r = 3 then "OPTIONS" else "GET"
  Header r := if r = 4 then [("Origin", ["example.org"])] else []

/-- Environment with no variable set, inside the function host. -/
def emptyEnvironment : Environment :=
  { GetEnvVar := fun _ => "", IsLambda := true }

/-- Environment with `PORT=3000`, outside the function host. -/
def port3000Environment : Environment :=
  { GetEnvVar := fun name => if name = "PORT" then "3000" else "", IsLambda := false }

/-- Packages over numbered events: event 0 fails to convert, event `n + 1`
converts to request `n`. -/
def samplePackages : Packages Nat Nat Unit Unit Nat where
  ParseEnvironmentFile _ := none
  NewEnvironment := emptyEnvironment
  LambdaEventToHttpRequest ev :=
    if ev = 0 then (0, some ⟨"malformed event"⟩) else (ev - 1, none)
  Connect _ _ := ()
  NewHandlersContainer _ := ()
  NewApi _ := ⟨sampleRouter⟩
  lambdaStartReturns := false
  ListenAndServe _ := none

/-- The sample packages with an environment file that fails to parse. -/
def brokenEnvFilePackages : Packages Nat Nat Unit Unit Nat :=
  { samplePackages with ParseEnvironmentFile := fun _ => some ⟨"invalid environment file"⟩ }

/-- The sample packages outside the function host, with `PORT=3000`. -/
def serverModePackages : Packages Nat Nat Unit Unit Nat :=
  { samplePackages with NewEnvironment := port3000Environment }

/-! ## Lemmas on strings -/

/-- Appending to `":"` gives `":"` back only for the empty string. -/
theorem colon_append_eq_colon_iff (p : String) : ":" ++ p = ":" ↔ p = "" := by
  constructor
  · intro h
    have hd := congrArg String.data h
    rw [String.data_append] at hd
    have hp : p.data = [] := by simpa using hd
    exact String.ext hp
  · rintro rfl
    rfl

/-- Unfolding of `getServerPort` on the value of `PORT`. -/
theorem getServerPort_eq (utilsContainer : UtilsContainer) :
    getServerPort utilsContainer =
      if utilsContainer.Environment.GetEnvVar "PORT" = "" then ":8080"
      else ":" ++ utilsContainer.Environment.GetEnvVar "PORT" := by
  unfold getServerPort
  by_cases h : utilsContainer.Environment.GetEnvVar "PORT" = ""
  · simp [h]
  · have hne : ¬ (":" ++ utilsContainer.Environment.GetEnvVar "PORT" = ":") :=
      fun hc => h ((colon_append_eq_colon_iff _).1 hc)
    simp [h, hne]

/-! ## Port selection -/

/-- C5: if the lookup of `PORT` yields the empty string, `getServerPort` returns
`":8080"`, and `httpServer` hands exactly that address to `http.ListenAndServe`. -/
theorem getServerPort_default (utilsContainer : UtilsContainer)
    (h : utilsContainer.Environment.GetEnvVar "PORT" = "") :
    getServerPort utilsContainer = ":8080" ∧
    ∀ {Ev Req DB HC σ : Type} (pk : Packages Ev Req DB HC σ) (hc : HC),
      (httpServer pk hc utilsContainer).head? =
        some (.ListenAndServe ":8080" (setupCORS (pk.NewApi hc).Router).options) := by
  have hp : getServerPort utilsContainer = ":8080" := by
    rw [getServerPort_eq, if_pos h]
  refine ⟨hp, ?_⟩
  intro Ev Req DB HC σ pk hc
  simp [httpServer, httpServerHandler, hp]

/-- Witness of `getServerPort_default` at the environment with no variable set. -/
theorem getServerPort_default_witness :
    getServerPort ⟨emptyEnvironment⟩ = ":8080" ∧
    ∀ {Ev Req DB HC σ : Type} (pk : Packages Ev Req DB HC σ) (hc : HC),
      (httpServer pk hc ⟨emptyEnvironment⟩).head? =
        some (.ListenAndServe ":8080" (setupCORS (pk.NewApi hc).Router).options) :=
  getServerPort_default ⟨emptyEnvironment⟩ rfl

/-- C8: for a non-empty `PORT` value `p`, `getServerPort` returns `":" ++ p`
unchanged; and for every environment the result is `":"` followed by a non-empty
remainder, so it is never the bare `":"`. -/
theorem getServerPort_nonempty (utilsContainer : UtilsContainer) :
    (utilsContainer.Environment.GetEnvVar "PORT" ≠ "" →
      getServerPort utilsContainer = ":" ++ utilsContainer.Environment.GetEnvVar "PORT") ∧
    (∃ rest, getServerPort utilsContainer = ":" ++ rest ∧ rest ≠ "") ∧
    getServerPort utilsContainer ≠ ":" := by
  by_cases h : utilsContainer.Environment.GetEnvVar "PORT" = ""
  · have hp : getServerPort utilsContainer = ":8080" := by rw [getServerPort_eq, if_pos h]
    refine ⟨fun hne => absurd h hne, ⟨"8080", ?_, by decide⟩, ?_⟩
    · rw [hp]; rfl
    · rw [hp]; decide
  · have hp : getServerPort utilsContainer = ":" ++ utilsContainer.Environment.GetEnvVar "PORT" := by
      rw [getServerPort_eq, if_neg h]
    refine ⟨fun _ => hp, ⟨_, hp, h⟩, ?_⟩
    rw [hp]
    exact fun hc => h ((colon_append_eq_colon_iff _).1 hc)

/-- Witness of `getServerPort_nonempty` at `PORT=3000`. -/
theorem getServerPort_nonempty_witness :
    port3000Environment.GetEnvVar "PORT" ≠ "" ∧
    getServerPort ⟨port3000Environment⟩ = ":3000" :=
  ⟨by decide, (getServerPort_nonempty ⟨port3000Environment⟩).1 (by decide)⟩

/-! ## Startup log -/

/-- C10: the message before the last one is the labelled server URL, but the
last message repeats that label inside the Swagger line: it is
`"Swagger url: Server url: http://localhost" ++ port ++ "/api-docs/index.html"`,
which differs from `"Swagger url: http://localhost" ++ port ++ "/api-docs/index.html"`
for every environment; evaluated with no variable set, the log ends in
`"Swagger url: Server url: http://localhost:8080/api-docs/index.html"`. -/
theorem logServerInfo_swagger_line (utilsContainer : UtilsContainer) :
    (logServerInfo utilsContainer).getLast? =
      some ("Swagger url: " ++
        (("Server url: http://localhost" ++ getServerPort utilsContainer) ++
          "/api-docs/index.html")) ∧
    (logServerInfo utilsContainer).getLast? ≠
      some ("Swagger url: " ++
        (("http://localhost" ++ getServerPort utilsContainer) ++ "/api-docs/index.html")) ∧
    (logServerInfo utilsContainer).dropLast.getLast? =
      some ("Server url: http://localhost" ++ getServerPort utilsContainer) ∧
    logServerInfo ⟨emptyEnvironment⟩ =
      [ "Initializing server", "Environment: ", "Server url: http://localhost:8080",
        "Swagger url: Server url: http://localhost:8080/api-docs/index.html" ] := by
  refine ⟨by simp [logServerInfo], ?_, by simp [logServerInfo], by decide⟩
  intro h
  simp only [logServerInfo, List.getLast?_cons_cons, List.getLast?_singleton,
    Option.some.injEq] at h
  have hd := congrArg String.data h
  simp [String.data_append] at hd

/-! ## Cross-origin policy -/

/-- The policy the library builds from the options of `setupCORS`. -/
theorem parseCORSOptions_setupCORS {H : Type} (handler : H) :
    parseCORSOptions (setupCORS handler).options =
      { allowedHeaders :=
          [ "Accept", "Accept-Language", "Content-Language", "Origin", "Content-Type",
            "Access-Control-Allow-Headers", "Authorization", "X-Requested-With" ],
        allowedMethods := ["DELETE", "POST", "GET", "OPTIONS", "PUT", "PATCH"],
        allowedOrigins := ["*"],
        allowedOriginValidator := none,
        exposedHeaders := [],
        maxAge := 0,
        ignoreOptions := false,
        allowCredentials := false,
        optionStatusCode := 200 } := by
  rfl

/-- C6 as stated fails: the policy built by `setupCORS` also allows the header
`Accept`, which is not one of the four configured headers (the library starts
from its default headers and appends the configured ones), so the allowed
header set is not exactly the four; a preflight asking for `Accept` passes
the header check. -/
theorem setupCORS_allows_default_header :
    isMatch "Accept" (parseCORSOptions (setupCORS ()).options).allowedHeaders = true ∧
    "Accept" ∉
      ["Content-Type", "Access-Control-Allow-Headers", "Authorization", "X-Requested-With"] ∧
    allowedRequestHeaders (parseCORSOptions (setupCORS ()).options) ["Accept"] = some [] ∧
    ¬ (∀ h, isMatch h (parseCORSOptions (setupCORS ()).options).allowedHeaders = true ↔
        h ∈ ["Content-Type", "Access-Control-Allow-Headers", "Authorization",
          "X-Requested-With"]) := by
  refine ⟨by decide, by decide, by decide, ?_⟩
  intro hall
  exact absurd ((hall "Accept").1 (by decide)) (by decide)

/-- C6, amended: the policy built by `setupCORS` allows exactly the methods
GET, POST, PUT, PATCH, DELETE, OPTIONS, exactly the headers Accept,
Accept-Language, Content-Language, Origin (the defaults of the library) and
Content-Type, Access-Control-Allow-Headers, Authorization, X-Requested-With
(the configured ones), and the single origin `"*"`, so that every non-empty
origin is allowed; the policy is the same for every wrapped handler (of any
type) and takes no request or path as input; the wrapped handler is kept as
is. -/
theorem setupCORS_policy {H : Type} (handler : H) :
    (∀ m, isMatch m (parseCORSOptions (setupCORS handler).options).allowedMethods = true ↔
      m ∈ ["GET", "POST", "PUT", "PATCH", "DELETE", "OPTIONS"]) ∧
    (∀ h, isMatch h (parseCORSOptions (setupCORS handler).options).allowedHeaders = true ↔
      h ∈ ["Accept", "Accept-Language", "Content-Language", "Origin", "Content-Type",
        "Access-Control-Allow-Headers", "Authorization", "X-Requested-With"]) ∧
    (parseCORSOptions (setupCORS handler).options).allowedOrigins = ["*"] ∧
    (∀ origin, origin ≠ "" →
      (parseCORSOptions (setupCORS handler).options).isOriginAllowed origin = true) ∧
    (∀ {K : Type} (other : K),
      parseCORSOptions (setupCORS other).options =
        parseCORSOptions (setupCORS handler).options) ∧
    (setupCORS handler).handler = handler := by
  rw [parseCORSOptions_setupCORS]
  refine ⟨?_, ?_, rfl, ?_, fun other => parseCORSOptions_setupCORS other, rfl⟩
  · intro m
    simp only [isMatch, List.any_eq_true, List.mem_cons, List.mem_singleton,
      List.not_mem_nil, or_false, decide_eq_true_eq, exists_eq_or_imp, exists_eq_left]
    constructor
    · rintro (h | h | h | h | h | h) <;> simp [← h]
    · rintro (h | h | h | h | h | h) <;> simp [h]
  · intro h
    simp only [isMatch, List.any_eq_true, List.mem_cons, List.mem_singleton,
      List.not_mem_nil, or_false, decide_eq_true_eq, exists_eq_or_imp, exists_eq_left]
    constructor
    · rintro (e | e | e | e | e | e | e | e) <;> simp [← e]
    · rintro (e | e | e | e | e | e | e | e) <;> simp [e]
  · intro origin hne
    simp [cors.isOriginAllowed, hne]

/-- Witness of `setupCORS_policy`: the origin `example.org` is allowed. -/
theorem setupCORS_policy_witness :
    "example.org" ≠ "" ∧
    (parseCORSOptions (setupCORS ()).options).isOriginAllowed "example.org" = true :=
  ⟨by decide, (setupCORS_policy ()).2.2.2.1 "example.org" (by decide)⟩

/-! ## Function-mode handler -/

/-- C1: when the conversion of the event returns an error `e`, `LambdaHandler`
returns the reply with status 500 and body `e.Error()` together with a nil
error; the state behind the router is left untouched and the result is the same
for every router, handlers container and state (the router is not run); hence
the next event is handled exactly as if this one had not been seen. -/
theorem LambdaHandler_conversion_error {Ev Req DB HC σ : Type}
    (pk : Packages Ev Req DB HC σ) (handlersContainer : HC) (request : Ev) (s : σ)
    (req : Req) (e : GoError)
    (h : pk.LambdaEventToHttpRequest request = (req, some e)) :
    LambdaHandler pk handlersContainer request s =
      (.returned ({ StatusCode := 500, Body := e.Error }, none), s) ∧
    (∀ (newApi : HC → Api Req σ) (hc : HC) (s₁ : σ),
      LambdaHandler { pk with NewApi := newApi } hc request s₁ =
        (.returned ({ StatusCode := 500, Body := e.Error }, none), s₁)) ∧
    (∀ next : Ev,
      LambdaHandler pk handlersContainer next
          (LambdaHandler pk handlersContainer request s).2 =
        LambdaHandler pk handlersContainer next s) := by
  have key : ∀ (newApi : HC → Api Req σ) (hc : HC) (s₁ : σ),
      LambdaHandler { pk with NewApi := newApi } hc request s₁ =
        (.returned ({ StatusCode := 500, Body := e.Error }, none), s₁) := by
    intro newApi hc s₁
    simp [LambdaHandler, h, StatusInternalServerError]
  have here : LambdaHandler pk handlersContainer request s =
      (.returned ({ StatusCode := 500, Body := e.Error }, none), s) :=
    key pk.NewApi handlersContainer s
  refine ⟨here, key, ?_⟩
  intro next
  rw [here]

/-- Witness of `LambdaHandler_conversion_error`: sample event 0 fails to convert. -/
theorem LambdaHandler_conversion_error_witness :
    samplePackages.LambdaEventToHttpRequest 0 = (0, some ⟨"malformed event"⟩) ∧
    LambdaHandler samplePackages () 0 7 =
      (.returned ({ StatusCode := 500, Body := "malformed event" }, none), 7) :=
  ⟨rfl, (LambdaHandler_conversion_error samplePackages () 0 7 0 ⟨"malformed event"⟩ rfl).1⟩

/-- C2 as stated fails: sample event 4 converts to an `OPTIONS` request; the
router answers it 404, and so does `LambdaHandler`, while on the socket path
the CORS wrapper answers the request itself, leaving the writer at status 200
with an empty body and the router state untouched. -/
theorem LambdaHandler_parity_fails_for_options :
    samplePackages.LambdaEventToHttpRequest 4 = (3, none) ∧
    sampleRequestFields.Method 3 = "OPTIONS" ∧
    LambdaHandler samplePackages () 4 0 =
      (.returned ({ StatusCode := 404,
                    Body := "404 page not found",
                    Headers := [("Content-Type", "application/json")] }, none), 1) ∧
    (httpServerHandler samplePackages ()).ServeHTTP sampleRequestFields NewRecorder 3 0 =
      (.returned { Code := 200, HeaderMap := [], Body := ⟨""⟩ }, 0) ∧
    statusAndBody
        ((httpServerHandler samplePackages ()).ServeHTTP sampleRequestFields NewRecorder 3 0) ≠
      (.returned (404, "404 page not found"), 1) := by
  refine ⟨rfl, rfl, by decide, by decide, by decide⟩

/-- C2, amended: when the conversion succeeds with request `req` and the router,
run on a fresh recorder, returns, `LambdaHandler` returns a reply (with a nil
error) whose status code is the recorder code and whose body is the text of
the recorder body. On the socket path the same router sits behind the CORS
wrapper of `setupCORS`. If `req` is not an `OPTIONS` request and has no
`Origin` header, the wrapper runs the router on the untouched writer, so the
socket path gives the same recorder and state. If `req` is not an `OPTIONS`
request and the status, body and state effect of the router do not depend on
headers already set on the writer, the socket path gives the same status, body
and state. If `req` is an `OPTIONS` request, the wrapper answers by itself:
the result is the same for every wrapped handler and the state is unchanged. -/
theorem LambdaHandler_transport_parity {Ev Req DB HC σ : Type}
    (rq : RequestFields Req) (pk : Packages Ev Req DB HC σ) (handlersContainer : HC)
    (request : Ev) (s s' : σ) (req : Req) (recorder : ResponseRecorder)
    (h : pk.LambdaEventToHttpRequest request = (req, none))
    (hr : (pk.NewApi handlersContainer).Router.ServeHTTP NewRecorder req s =
      (.returned recorder, s')) :
    ∃ response : APIGatewayProxyResponse,
      LambdaHandler pk handlersContainer request s = (.returned (response, none), s') ∧
      response.StatusCode = recorder.Code ∧
      response.Body = recorder.Body.String ∧
      (rq.Method req ≠ "OPTIONS" → Header.Get (rq.Header req) "Origin" = "" →
        (httpServerHandler pk handlersContainer).ServeHTTP rq NewRecorder req s =
          (.returned recorder, s')) ∧
      (rq.Method req ≠ "OPTIONS" →
        (∀ headers : Header,
          statusAndBody ((pk.NewApi handlersContainer).Router.ServeHTTP
              { NewRecorder with HeaderMap := headers } req s) =
            statusAndBody ((pk.NewApi handlersContainer).Router.ServeHTTP NewRecorder req s)) →
        statusAndBody ((httpServerHandler pk handlersContainer).ServeHTTP rq NewRecorder req s) =
          (.returned (response.StatusCode, response.Body), s')) ∧
      (rq.Method req = "OPTIONS" →
        ((httpServerHandler pk handlersContainer).ServeHTTP rq NewRecorder req s).2 = s ∧
        ∀ other : Handler Req σ,
          (setupCORS other).ServeHTTP rq NewRecorder req s =
            (httpServerHandler pk handlersContainer).ServeHTTP rq NewRecorder req s) := by
  have run : LambdaHandler pk handlersContainer request s =
      (.returned ({ StatusCode := recorder.Code,
                    Body := recorder.Body.String,
                    Headers := [("Content-Type", "application/json")] }, none), s') := by
    simp [LambdaHandler, h, hr]
  have serve : ∀ handler : Handler Req σ,
      (setupCORS handler).ServeHTTP rq NewRecorder req s =
        if Header.Get (rq.Header req) "Origin" = "" then
          if rq.Method req = "OPTIONS" then (.returned NewRecorder, s)
          else handler.ServeHTTP NewRecorder req s
        else if rq.Method req = "OPTIONS" then
          match corsPreflight (parseCORSOptions (setupCORS handler).options)
              (rq.Header req) NewRecorder with
          | .inl w₁ => (.returned w₁, s)
          | .inr w₁ =>
            (.returned ((w₁.HeaderSet "Access-Control-Allow-Origin" "*").WriteHeader 200), s)
        else
          handler.ServeHTTP (NewRecorder.HeaderSet "Access-Control-Allow-Origin" "*") req s := by
    intro handler
    have hh : (setupCORS handler).handler = handler := rfl
    by_cases ho : Header.Get (rq.Header req) "Origin" = "" <;>
      by_cases hm : rq.Method req = "OPTIONS" <;>
      simp [CORSHandler.ServeHTTP, parseCORSOptions_setupCORS, cors.isOriginAllowed, ho, hm,
        corsFinish, returnOrigin, hh]
  have hsock : httpServerHandler pk handlersContainer =
      setupCORS (pk.NewApi handlersContainer).Router := rfl
  refine ⟨_, run, rfl, rfl, ?_, ?_, ?_⟩
  · intro hm ho
    rw [hsock, serve, if_pos ho, if_neg hm, hr]
  · intro hm hins
    rw [hsock, serve]
    by_cases ho : Header.Get (rq.Header req) "Origin" = ""
    · rw [if_pos ho, if_neg hm, hr]
      rfl
    · rw [if_neg ho, if_neg hm]
      have hset := hins (Header.Set NewRecorder.HeaderMap "Access-Control-Allow-Origin" "*")
      rw [hr] at hset
      exact hset
  · intro hm
    rw [hsock]
    constructor
    · rw [serve]
      by_cases ho : Header.Get (rq.Header req) "Origin" = ""
      · rw [if_pos ho, if_pos hm]
      · rw [if_neg ho, if_pos hm]
        cases corsPreflight (parseCORSOptions (setupCORS (pk.NewApi handlersContainer).Router).options)
          (rq.Header req) NewRecorder <;> rfl
    · intro other
      rw [serve, serve]
      simp only [hm, if_true, parseCORSOptions_setupCORS]

/-- Witness of `LambdaHandler_transport_parity`: sample event 5 converts to a
`GET` request with an `Origin` header that the router answers 404; the socket
path gives the same status and body. -/
theorem LambdaHandler_transport_parity_witness :
    samplePackages.LambdaEventToHttpRequest 5 = (4, none) ∧
    sampleRequestFields.Method 4 ≠ "OPTIONS" ∧
    LambdaHandler samplePackages () 5 0 =
      (.returned ({ StatusCode := 404,
                    Body := "404 page not found",
                    Headers := [("Content-Type", "application/json")] }, none), 1) ∧
    statusAndBody
        ((httpServerHandler samplePackages ()).ServeHTTP sampleRequestFields NewRecorder 4 0) =
      (.returned (404, "404 page not found"), 1) := by
  obtain ⟨response, hrun, hcode, hbody, -, hsame, -⟩ :=
    LambdaHandler_transport_parity sampleRequestFields samplePackages () 5 0 1 4
      { Code := 404, HeaderMap := [], Body := ⟨"404 page not found"⟩ } rfl rfl
  have hsock := hsame (by decide) (fun _ => rfl)
  rw [hcode, hbody] at hsock
  exact ⟨rfl, by decide, by decide, hsock⟩

/-- C3: on the conversion-error path the reply is built without a header map:
its `Headers` is the nil map, which has no `Content-Type` entry. -/
theorem LambdaHandler_error_reply_headers {Ev Req DB HC σ : Type}
    (pk : Packages Ev Req DB HC σ) (handlersContainer : HC) (request : Ev) (s : σ)
    (req : Req) (e : GoError)
    (h : pk.LambdaEventToHttpRequest request = (req, some e)) :
    ∃ response : APIGatewayProxyResponse,
      LambdaHandler pk handlersContainer request s = (.returned (response, none), s) ∧
      response.Headers = [] ∧
      mapLookup response.Headers "Content-Type" = none := by
  refine ⟨{ StatusCode := 500, Body := e.Error }, ?_, rfl, rfl⟩
  simp [LambdaHandler, h, StatusInternalServerError]

/-- Witness of `LambdaHandler_error_reply_headers` at sample event 0. -/
theorem LambdaHandler_error_reply_headers_witness :
    samplePackages.LambdaEventToHttpRequest 0 = (0, some ⟨"malformed event"⟩) ∧
    ∃ response : APIGatewayProxyResponse,
      LambdaHandler samplePackages () 0 0 = (.returned (response, none), 0) ∧
      response.Headers = [] ∧
      mapLookup response.Headers "Content-Type" = none :=
  ⟨rfl, LambdaHandler_error_reply_headers samplePackages () 0 0 0 ⟨"malformed event"⟩ rfl⟩

/-- C9: for a well-formed event on which the router returns, the reply carries
exactly the one-entry header map `Content-Type: application/json`; and a router
whose recorder differs only in its header map gives the identical result. -/
theorem LambdaHandler_headers_fixed {Ev Req DB HC σ : Type}
    (pk : Packages Ev Req DB HC σ) (handlersContainer : HC) (request : Ev) (s s' : σ)
    (req : Req) (recorder : ResponseRecorder)
    (h : pk.LambdaEventToHttpRequest request = (req, none))
    (hr : (pk.NewApi handlersContainer).Router.ServeHTTP NewRecorder req s =
      (.returned recorder, s')) :
    (∃ response : APIGatewayProxyResponse,
      LambdaHandler pk handlersContainer request s = (.returned (response, none), s') ∧
      response.Headers = [("Content-Type", "application/json")]) ∧
    (∀ (newApi : HC → Api Req σ) (headers : List (String × List String)),
      (newApi handlersContainer).Router.ServeHTTP NewRecorder req s =
          (.returned { recorder with HeaderMap := headers }, s') →
        LambdaHandler { pk with NewApi := newApi } handlersContainer request s =
          LambdaHandler pk handlersContainer request s) := by
  have run : LambdaHandler pk handlersContainer request s =
      (.returned ({ StatusCode := recorder.Code,
                    Body := recorder.Body.String,
                    Headers := [("Content-Type", "application/json")] }, none), s') := by
    simp [LambdaHandler, h, hr]
  refine ⟨⟨_, run, rfl⟩, ?_⟩
  intro newApi headers hr2
  rw [run]
  simp [LambdaHandler, h, hr2]

/-- Witness of `LambdaHandler_headers_fixed`: sample event 2 is answered 200 by
a router that set `Content-Type: text/plain`. -/
theorem LambdaHandler_headers_fixed_witness :
    (∃ response : APIGatewayProxyResponse,
      LambdaHandler samplePackages () 2 0 = (.returned (response, none), 1) ∧
      response.Headers = [("Content-Type", "application/json")]) ∧
    (∀ (newApi : Unit → Api Nat Nat) (headers : List (String × List String)),
      (newApi ()).Router.ServeHTTP NewRecorder 1 0 =
          (.returned { Code := 200, HeaderMap := headers, Body := ⟨"[]"⟩ }, 1) →
        LambdaHandler { samplePackages with NewApi := newApi } () 2 0 =
          LambdaHandler samplePackages () 2 0) :=
  LambdaHandler_headers_fixed samplePackages () 2 0 1 1
    { Code := 200, HeaderMap := [("Content-Type", ["text/plain"])], Body := ⟨"[]"⟩ } rfl rfl

/-- C4 as stated fails: sample event 1 converts, its router run panics, and
`LambdaHandler` returns no reply at all (so no reply with status 500). -/
theorem LambdaHandler_fault_not_recovered :
    samplePackages.LambdaEventToHttpRequest 1 = (0, none) ∧
    (samplePackages.NewApi ()).Router.ServeHTTP NewRecorder 0 0 =
      (.panicked "handler fault", 1) ∧
    ¬ ∃ (response : APIGatewayProxyResponse) (err : Option GoError) (s' : Nat),
        LambdaHandler samplePackages () 1 0 = (.returned (response, err), s') := by
  refine ⟨rfl, rfl, ?_⟩
  rintro ⟨response, err, s', hrun⟩
  have hp : LambdaHandler samplePackages () 1 0 = (.panicked "handler fault", 1) := rfl
  rw [hp] at hrun
  cases hrun

/-- C4, amended: when the router panics with value `v` on a well-formed event,
`LambdaHandler` does not return: the panic leaves it with the same value `v`
and the state the router reached; and if the handler is invoked again from that
state on an event that converts and on which the router returns, it returns
the reply for that event. -/
theorem LambdaHandler_fault_propagates {Ev Req DB HC σ : Type}
    (pk : Packages Ev Req DB HC σ) (handlersContainer : HC) (request : Ev) (s s' : σ)
    (req : Req) (v : String)
    (h : pk.LambdaEventToHttpRequest request = (req, none))
    (hr : (pk.NewApi handlersContainer).Router.ServeHTTP NewRecorder req s =
      (.panicked v, s')) :
    LambdaHandler pk handlersContainer request s = (.panicked v, s') ∧
    (∀ (next : Ev) (req₂ : Req) (recorder : ResponseRecorder) (s₂ : σ),
      pk.LambdaEventToHttpRequest next = (req₂, none) →
      (pk.NewApi handlersContainer).Router.ServeHTTP NewRecorder req₂ s' =
          (.returned recorder, s₂) →
        LambdaHandler pk handlersContainer next
            (LambdaHandler pk handlersContainer request s).2 =
          (.returned ({ StatusCode := recorder.Code,
                        Body := recorder.Body.String,
                        Headers := [("Content-Type", "application/json")] }, none), s₂)) := by
  have run : LambdaHandler pk handlersContainer request s = (.panicked v, s') := by
    simp [LambdaHandler, h, hr]
  refine ⟨run, ?_⟩
  intro next req₂ recorder s₂ h₂ hr₂
  rw [run]
  simp [LambdaHandler, h₂, hr₂]

/-- Witness of `LambdaHandler_fault_propagates`: sample event 1 panics, and
sample event 2 handled afterwards returns its 200 reply. -/
theorem LambdaHandler_fault_propagates_witness :
    LambdaHandler samplePackages () 1 0 = (.panicked "handler fault", 1) ∧
    LambdaHandler samplePackages () 2 (LambdaHandler samplePackages () 1 0).2 =
      (.returned ({ StatusCode := 200,
                    Body := "[]",
                    Headers := [("Content-Type", "application/json")] }, none), 2) :=
  ⟨(LambdaHandler_fault_propagates samplePackages () 1 0 1 0 "handler fault" rfl rfl).1,
   (LambdaHandler_fault_propagates samplePackages () 1 0 1 0 "handler fault" rfl rfl).2
     2 1 { Code := 200, HeaderMap := [("Content-Type", ["text/plain"])], Body := ⟨"[]"⟩ } 2
     rfl rfl⟩

/-! ## Mode selection -/

/-- C7 as stated fails: when the environment file does not parse, `loadEnvs`
ends the run in `log.Fatal` before `IsLambda()` is called, so that run holds no
read of the signal (and starts no transport). -/
theorem main_without_read :
    main brokenEnvFilePackages =
      [.ParseEnvironmentFile "", .Fatal "invalid environment file"] ∧
    isLambdaReads (main brokenEnvFilePackages) = [] ∧
    ¬ ∃ b : Bool,
        isLambdaReads (main brokenEnvFilePackages) = [b] ∧
        transportBeforeRead (main brokenEnvFilePackages) = false ∧
        (startsLambda (main brokenEnvFilePackages) = true ↔ b = true) ∧
        (startsHTTP (main brokenEnvFilePackages) = true ↔ b = false) ∧
        ¬ (startsLambda (main brokenEnvFilePackages) = true ∧
            startsHTTP (main brokenEnvFilePackages) = true) := by
  have ht : main brokenEnvFilePackages =
      [.ParseEnvironmentFile "", .Fatal "invalid environment file"] := by decide
  refine ⟨ht, by rw [ht]; rfl, ?_⟩
  rintro ⟨b, hb, -⟩
  rw [ht] at hb
  cases hb

/-- C7, amended: in every run of `main` that gets past `loadEnvs` (the
environment file parses), `IsLambda()` is called exactly once, no transport is
started before that call, the Lambda entry point is registered iff the value
read is true and the HTTP server is started iff it is false; and in every run
whatsoever the signal is read at most once, no transport precedes the read,
and the two transports are never both started. -/
theorem main_mode_selection {Ev Req DB HC σ : Type} (pk : Packages Ev Req DB HC σ) :
    (pk.ParseEnvironmentFile "" = none →
      isLambdaReads (main pk) = [pk.NewEnvironment.IsLambda] ∧
      (startsLambda (main pk) = true ↔ pk.NewEnvironment.IsLambda = true) ∧
      (startsHTTP (main pk) = true ↔ pk.NewEnvironment.IsLambda = false)) ∧
    (isLambdaReads (main pk)).length ≤ 1 ∧
    transportBeforeRead (main pk) = false ∧
    ¬ (startsLambda (main pk) = true ∧ startsHTTP (main pk) = true) := by
  cases hparse : pk.ParseEnvironmentFile "" with
  | some err =>
    simp [main, loadEnvs, hparse, isLambdaReads, transportBeforeRead, startsLambda,
      startsHTTP]
  | none =>
    cases hl : pk.NewEnvironment.IsLambda with
    | true =>
      cases hret : pk.lambdaStartReturns <;>
        simp [main, loadEnvs, hparse, hl, hret, NewContainer, isLambdaReads,
          transportBeforeRead, startsLambda, startsHTTP, logServerInfo]
    | false =>
      cases hsrv : pk.ListenAndServe (getServerPort (NewContainer pk.NewEnvironment)) <;>
        simp [main, loadEnvs, hparse, hl, hsrv, NewContainer, httpServer, isLambdaReads,
          transportBeforeRead, startsLambda, startsHTTP] <;>
        simp [NewContainer] at hsrv <;> simp [hsrv, isLambdaReads]

/-- Witness of `main_mode_selection`: the sample packages run inside the
function host, the server-mode packages outside of it. -/
theorem main_mode_selection_witness :
    samplePackages.ParseEnvironmentFile "" = none ∧
    isLambdaReads (main samplePackages) = [true] ∧
    (startsLambda (main samplePackages) = true ↔ samplePackages.NewEnvironment.IsLambda = true) ∧
    (startsHTTP (main samplePackages) = true ↔ samplePackages.NewEnvironment.IsLambda = false) :=
  ⟨rfl, (main_mode_selection samplePackages).1 rfl⟩

end TemplateBaseGo
